import Mathlib

/-!
Verification of the ray-menu radial menu engine.

The TypeScript sources are embedded shallowly:
* numbers are modelled by `ℚ`;
* the analytic primitives of the platform math library (`Math.PI`,
  `Math.sqrt`, `Math.atan2`, `Math.cos`, `Math.sin`) are gathered in a
  `RealOps` record and every definition that uses them is parametrised by it,
  so all definitions stay computable and the structural properties of the
  engine are proved for every interpretation of those primitives;
* the stateful `RayMenu` custom element is modelled by an explicit
  `EngineState` record; methods become functions
  `EngineState → EngineState × List REvent`, the returned list holding the
  dispatched events in dispatch order;
* the single `await` suspension point of `_loadChildrenAsync` is modelled by
  splitting the method into its synchronous prefix (`startLoad`, run by
  `enterSubmenu`) and its continuation (`loadContinuation`), which the
  environment applies to whatever state holds when the promise settles.
-/

namespace RayMenu

/-- `Point {x, y}` from core/angle. -/
structure Point where
  x : ℚ
  y : ℚ
deriving DecidableEq

/-- `Velocity {vx, vy}` from core/physics. -/
structure Velocity where
  vx : ℚ
  vy : ℚ
deriving DecidableEq

/-- The analytic primitives used by the source.  They are transcendental /
floating-point operations, so the embedding abstracts them as an arbitrary
record of rational functions. -/
structure RealOps where
  pi : ℚ
  sqrt : ℚ → ℚ
  atan2 : ℚ → ℚ → ℚ
  cos : ℚ → ℚ
  sin : ℚ → ℚ

/-- Truncation toward zero, the rounding used by the JS `%` operator. -/
def qtrunc (q : ℚ) : ℚ :=
  if q < 0 then (⌈q⌉ : ℚ) else (⌊q⌋ : ℚ)

/-- JS remainder `a % b` (sign of the dividend). -/
def jsMod (a b : ℚ) : ℚ :=
  a - b * qtrunc (a / b)

/-- `angleFromCenter(center, point)` = `atan2(dy, dx)`. -/
def angleFromCenter (ops : RealOps) (center point : Point) : ℚ :=
  ops.atan2 (point.y - center.y) (point.x - center.x)

/-- `distance(p1, p2)` = `sqrt(dx*dx + dy*dy)`. -/
def distance (ops : RealOps) (p1 p2 : Point) : ℚ :=
  let dx := p2.x - p1.x
  let dy := p2.y - p1.y
  ops.sqrt (dx * dx + dy * dy)

/-- `normalizeAngle`: normalize to `[0, 2π)` via `((a % 2π) + 2π) % 2π`. -/
def normalizeAngle (ops : RealOps) (angle : ℚ) : ℚ :=
  let twoPi := ops.pi * 2
  jsMod (jsMod angle twoPi + twoPi) twoPi

/-- `angleDifference(a1, a2)`: shortest signed angular difference. -/
def angleDifference (ops : RealOps) (angle1 angle2 : ℚ) : ℚ :=
  let diff := normalizeAngle ops (angle2 - angle1)
  if diff > ops.pi then diff - ops.pi * 2 else diff

/-- `distributeAngles(count, startAngle, sweepAngle)`. -/
def distributeAngles (count : Nat) (startAngle sweepAngle : ℚ) : List ℚ :=
  if count = 0 then []
  else if count = 1 then [startAngle]
  else
    let step := sweepAngle / (count : ℚ)
    (List.range count).map fun i => startAngle + step * (i : ℚ) + step / 2

/-- Loop of `getClosestItemIndex`: scan the remaining angles, keeping the
index of the smallest absolute `angleDifference` (strict improvement only,
so ties keep the first occurrence). -/
def closestLoop (ops : RealOps) (pointerAngle : ℚ) :
    List ℚ → Nat → Nat → ℚ → Nat
  | [], _, best, _ => best
  | a :: rest, i, best, smallest =>
    let d := |angleDifference ops pointerAngle a|
    if d < smallest then closestLoop ops pointerAngle rest (i + 1) i d
    else closestLoop ops pointerAngle rest (i + 1) best smallest

/-- `getClosestItemIndex(pointerAngle, itemAngles)`; `-1` on an empty list. -/
def getClosestItemIndex (ops : RealOps) (pointerAngle : ℚ)
    (itemAngles : List ℚ) : Int :=
  match itemAngles with
  | [] => -1
  | a0 :: rest =>
    (closestLoop ops pointerAngle rest 1 0
      |angleDifference ops pointerAngle a0| : Int)

/-- `Viewport` from core/edge. -/
structure Viewport where
  width : ℚ
  height : ℚ
deriving DecidableEq

/-- `EdgeConstraints`: available space per edge. -/
structure EdgeConstraints where
  top : ℚ
  right : ℚ
  bottom : ℚ
  left : ℚ
deriving DecidableEq

/-- The `constrained` flags of `EdgeState`. -/
structure ConstrainedFlags where
  top : Bool
  right : Bool
  bottom : Bool
  left : Bool
deriving DecidableEq

/-- `EdgeState` from core/edge. -/
structure EdgeState where
  constrained : ConstrainedFlags
  available : EdgeConstraints
  offset : Point
  isConstrained : Bool
deriving DecidableEq

/-- `getAvailableSpace(point, viewport, padding = 0)`. -/
def getAvailableSpace (point : Point) (viewport : Viewport)
    (padding : ℚ := 0) : EdgeConstraints :=
  { top := point.y - padding
  , right := viewport.width - point.x - padding
  , bottom := viewport.height - point.y - padding
  , left := point.x - padding }

/-- `detectEdgeConstraints(center, radius, viewport, padding = 8)`. -/
def detectEdgeConstraints (center : Point) (radius : ℚ)
    (viewport : Viewport) (padding : ℚ := 8) : EdgeState :=
  let available := getAvailableSpace center viewport padding
  let needed := radius
  let constrained : ConstrainedFlags :=
    { top := available.top < needed
    , right := available.right < needed
    , bottom := available.bottom < needed
    , left := available.left < needed }
  let offsetX : ℚ :=
    if constrained.left then needed - available.left
    else if constrained.right then -(needed - available.right)
    else 0
  let offsetY : ℚ :=
    if constrained.top then needed - available.top
    else if constrained.bottom then -(needed - available.bottom)
    else 0
  { constrained := constrained
  , available := available
  , offset := { x := offsetX, y := offsetY }
  , isConstrained :=
      constrained.top || constrained.right || constrained.bottom ||
        constrained.left }

/-- `MenuItem` from core/types.  `children?: MenuItem[]` is modelled as a
plain list (`undefined` and `[]` behave identically in the source, which
only ever tests `children && children.length > 0` / `children?.length`).
The functions `loadChildren?` and `onSelect?` are modelled by presence
flags; the value a pending `loadChildren` call settles with is supplied by
the environment when the continuation runs. -/
inductive MenuItem where
  | mk (id : String) (disabled : Bool) (selectable : Option Bool)
      (children : List MenuItem) (hasLoadChildren : Bool)
      (hasOnSelect : Bool)

def MenuItem.id : MenuItem → String
  | .mk i _ _ _ _ _ => i

def MenuItem.disabled : MenuItem → Bool
  | .mk _ d _ _ _ _ => d

def MenuItem.selectable : MenuItem → Option Bool
  | .mk _ _ s _ _ _ => s

def MenuItem.children : MenuItem → List MenuItem
  | .mk _ _ _ c _ _ => c

def MenuItem.hasLoadChildren : MenuItem → Bool
  | .mk _ _ _ _ l _ => l

def MenuItem.hasOnSelect : MenuItem → Bool
  | .mk _ _ _ _ _ o => o

/-- The caching assignment `item.children = children`. -/
def MenuItem.setChildren : MenuItem → List MenuItem → MenuItem
  | .mk i d s _ l o, c => .mk i d s c l o

/-- `item.children && item.children.length > 0`. -/
def hasChildrenB (item : MenuItem) : Bool :=
  !item.children.isEmpty

/-- `EdgeBehavior` from core/types. -/
inductive EdgeBehavior where
  | shift
  | flip
  | none
deriving DecidableEq

/-- `MenuConfig` from core/types. -/
structure MenuConfig where
  radius : ℚ
  innerRadius : ℚ
  gap : ℚ
  startAngle : ℚ
  sweepAngle : ℚ
  animationDuration : ℚ
  edgeDetection : Bool
  smartFlip : Bool
  showDriftTrace : Bool
  infiniteSelection : Bool
  centerDeadzone : ℚ
  infiniteThreshold : ℚ
  edgeBehavior : EdgeBehavior
deriving DecidableEq

/-- The part of `FlipState` consumed by hit-testing. -/
structure FlipState where
  flipX : Bool
  flipY : Bool
deriving DecidableEq

/-- `NavStackEntry` from wc/ray-menu-types. -/
structure NavStackEntry where
  item : MenuItem
  entryAngle : ℚ
  items : List MenuItem

/-- The outbound notifications dispatched by the engine, plus the
`item.onSelect` callback invocation, in dispatch order. -/
inductive REvent where
  | rayOpen
  | rayClose
  | raySelect (itemId : String)
  | onSelectCb (itemId : String)
  | rayDrop (itemId : String)
  | rayLoadStart (itemId : String)
  | rayLoadComplete (itemId : String)
  | rayLoadErrorEv (itemId : String)
  | raySubmenuEnter (itemId : String) (depth : Nat)
  | raySubmenuExit (itemId : String) (depth : Nat)
deriving DecidableEq

/-- The mutable fields of the `RayMenu` element that the modelled methods
read or write.  `pendingCleanup` models the close-animation callback
(`animationend` / `setTimeout` fallback) that has been scheduled but has
not fired yet; `hasContainer` models whether a `.ray-menu-container`
element is currently rendered in the shadow root.  Timer handles are
modelled as set/unset flags. -/
structure EngineState where
  items : List MenuItem
  isOpen : Bool
  isClosing : Bool
  isDropTarget : Bool
  position : Point
  hoveredIndex : Int
  focusedIndex : Int
  keyboardActive : Bool
  flip : FlipState
  pointerPosition : Option Point
  velocity : Velocity
  navStack : List NavStackEntry
  currentItems : List MenuItem
  submenuEntryConfirmed : Bool
  isLoading : Bool
  loadingItemId : Option String
  loadError : Option String
  springLoadItemId : Option String
  springLoadTimerSet : Bool
  backDwellTimerSet : Bool
  isStatic : Bool
  defaultOpen : Bool
  instantDragThrough : Bool
  dragThroughVelocityThreshold : ℚ
  dragThroughDistanceThreshold : ℚ
  submenuRadiusStep : ℚ
  centerSafeZone : ℚ
  pendingCleanup : Bool
  hasContainer : Bool
  config : MenuConfig

/-- `_clearSpringLoad()`. -/
def clearSpringLoad (s : EngineState) : EngineState :=
  { s with springLoadTimerSet := false, springLoadItemId := none }

/-- `_clearBackDwell()` (indicator updates are rendering, not modelled). -/
def clearBackDwell (s : EngineState) : EngineState :=
  { s with backDwellTimerSet := false }

/-- `_getCurrentRadius()`. -/
def getCurrentRadius (s : EngineState) : ℚ :=
  s.config.radius + (s.navStack.length : ℚ) * s.submenuRadiusStep

/-- `_getCurrentInnerRadius()`. -/
def getCurrentInnerRadius (s : EngineState) : ℚ :=
  if s.navStack.length = 0 then s.config.innerRadius
  else s.config.radius + ((s.navStack.length : ℚ) - 1) * s.submenuRadiusStep

/-- `_adjustAngleForFlip(angle)`. -/
def adjustAngleForFlip (ops : RealOps) (s : EngineState) (angle : ℚ) : ℚ :=
  let adjusted := if s.flip.flipX then ops.pi - angle else angle
  if s.flip.flipY then -adjusted else adjusted

/-- `_calculateHoveredIndex(pointer)`. -/
def calculateHoveredIndex (ops : RealOps) (s : EngineState)
    (pointer : Point) : Int :=
  let dist := distance ops s.position pointer
  let currentInnerRadius := getCurrentInnerRadius s
  let currentRadius := getCurrentRadius s
  let deadzone :=
    if s.config.infiniteSelection then
      max s.config.centerDeadzone currentInnerRadius
    else currentInnerRadius
  if dist < deadzone then -1
  else if !s.config.infiniteSelection && dist > currentRadius * (3 / 2) then -1
  else if s.config.infiniteSelection && s.config.infiniteThreshold > 0 &&
      dist > s.config.infiniteThreshold then -1
  else
    let angle := adjustAngleForFlip ops s (angleFromCenter ops s.position pointer)
    getClosestItemIndex ops angle
      (distributeAngles s.currentItems.length s.config.startAngle
        s.config.sweepAngle)

/-- `_performSubmenuEntry(item, entryAngle, confirmedEntry)`. -/
def performSubmenuEntry (item : MenuItem) (entryAngle : ℚ)
    (confirmedEntry : Bool) (s : EngineState) :
    EngineState × List REvent :=
  if item.children.isEmpty then (s, [])
  else
    let frame : NavStackEntry :=
      { item := item, entryAngle := entryAngle, items := s.currentItems }
    let s' := clearBackDwell (clearSpringLoad
      { s with navStack := frame :: s.navStack
             , currentItems := item.children
             , hoveredIndex := -1
             , focusedIndex := if s.keyboardActive then 0 else -1
             , submenuEntryConfirmed := confirmedEntry })
    (s', [.raySubmenuEnter item.id s'.navStack.length])

/-- `_exitSubmenu()`, also returning the method's boolean result. -/
def exitSubmenu (s : EngineState) : EngineState × List REvent × Bool :=
  match s.navStack with
  | [] => (s, [], false)
  | frame :: rest =>
    let fIdx : Int :=
      if s.keyboardActive then
        match frame.items.findIdx? (fun i => i.id == frame.item.id) with
        | some n => (n : Int)
        | Option.none => -1
      else -1
    let s' := clearSpringLoad
      { s with navStack := rest
             , currentItems := frame.items
             , hoveredIndex := -1
             , focusedIndex := fIdx }
    (s', [.raySubmenuExit frame.item.id rest.length], true)

/-- `goBack()`. -/
def goBack (s : EngineState) : EngineState × List REvent × Bool :=
  exitSubmenu s

/-- The synchronous prefix of `_loadChildrenAsync` (everything before the
`await`): set the loading flags and dispatch `ray-load-start`. -/
def startLoad (item : MenuItem) (s : EngineState) :
    EngineState × List REvent :=
  if !item.hasLoadChildren then (s, [])
  else
    ({ s with isLoading := true
            , loadingItemId := some item.id
            , loadError := none }
    , [.rayLoadStart item.id])

/-- The continuation of `_loadChildrenAsync` after `await item.loadChildren()`
settles with `result`; it runs against whatever state holds at that moment. -/
def loadContinuation (item : MenuItem) (entryAngle : ℚ)
    (confirmedEntry : Bool) (result : Except String (List MenuItem))
    (s : EngineState) : EngineState × List REvent :=
  match result with
  | .ok children =>
    if !s.isOpen || s.loadingItemId ≠ some item.id then (s, [])
    else
      let item' := item.setChildren children
      let s1 := { s with isLoading := false, loadingItemId := none }
      let entered :=
        if children.length > 0 then
          performSubmenuEntry item' entryAngle confirmedEntry s1
        else (s1, [])
      (entered.1, .rayLoadComplete item.id :: entered.2)
  | .error e =>
    if !s.isOpen || s.loadingItemId ≠ some item.id then (s, [])
    else
      ({ s with isLoading := false
              , loadingItemId := none
              , loadError := some e }
      , [.rayLoadErrorEv item.id])

/-- `_enterSubmenu(item, entryAngle, confirmedEntry)`.  When the async
branch is taken the method suspends after `startLoad`; the rest of the work
is `loadContinuation`. -/
def enterSubmenu (item : MenuItem) (entryAngle : ℚ)
    (confirmedEntry : Bool) (s : EngineState) :
    EngineState × List REvent :=
  let hasChildren := hasChildrenB item
  let canLoadChildren := item.hasLoadChildren
  if !hasChildren && !canLoadChildren then (s, [])
  else if !hasChildren && canLoadChildren then startLoad item s
  else performSubmenuEntry item entryAngle confirmedEntry s

/-- The `cleanup` closure of `close()`. -/
def cleanupState (s : EngineState) : EngineState :=
  clearBackDwell (clearSpringLoad
    { s with isOpen := false
           , isClosing := false
           , isDropTarget := false
           , hoveredIndex := -1
           , focusedIndex := -1
           , keyboardActive := false
           , isLoading := false
           , loadingItemId := none
           , loadError := none
           , pointerPosition := none
           , velocity := { vx := 0, vy := 0 }
           , navStack := []
           , currentItems := []
           , pendingCleanup := false
           , hasContainer := false })

/-- `close()`.  In dock mode (`default-open` + `static`) selection state is
reset without closing.  Otherwise `_isClosing` is set and `cleanup` runs
immediately in drop-target mode or when no container is rendered, and is
deferred to the close animation (`pendingCleanup`) otherwise;
`ray-close` is dispatched in all of these paths. -/
def close (s : EngineState) : EngineState × List REvent :=
  if s.defaultOpen && s.isStatic then
    ({ s with hoveredIndex := -1
            , focusedIndex := -1
            , keyboardActive := false
            , navStack := []
            , currentItems := s.items }
    , [])
  else
    let s1 := { s with isClosing := true }
    if s.isDropTarget then (cleanupState s1, [.rayClose])
    else if s.hasContainer then
      ({ s1 with pendingCleanup := true }, [.rayClose])
    else (cleanupState s1, [.rayClose])

/-- The deferred `cleanup` callback firing (`animationend` or the 200ms
fallback). -/
def cleanupFires (s : EngineState) : EngineState :=
  if s.pendingCleanup then cleanupState s else s

/-- `_selectItem(item)`. -/
def selectItem (ops : RealOps) (item : MenuItem) (s : EngineState) :
    EngineState × List REvent :=
  let hasChildren := hasChildrenB item
  let canLoadChildren := item.hasLoadChildren
  if hasChildren || canLoadChildren then
    let angle :=
      match s.pointerPosition with
      | some p => angleFromCenter ops s.position p
      | Option.none => s.config.startAngle
    enterSubmenu item angle true s
  else if item.selectable = some false then (s, [])
  else
    let closed := close s
    (closed.1
    , (if item.hasOnSelect then [REvent.onSelectCb item.id] else []) ++
        [.raySelect item.id] ++ closed.2)

/-- `_onClick(e)` at click position `clickPoint`. -/
def onClick (ops : RealOps) (clickPoint : Point) (s : EngineState) :
    EngineState × List REvent :=
  if !s.isOpen then (s, [])
  else
    let dist := distance ops s.position clickPoint
    let currentInnerRadius := getCurrentInnerRadius s
    if dist < currentInnerRadius then
      if s.navStack.length > 0 then
        let ex := exitSubmenu s
        (ex.1, ex.2.1)
      else close s
    else if 0 ≤ s.hoveredIndex ∧ s.hoveredIndex < (s.currentItems.length : Int) then
      match s.currentItems[s.hoveredIndex.toNat]? with
      | some item => if !item.disabled then selectItem ops item s else (s, [])
      | Option.none => (s, [])
    else close s

/-- `_checkSubmenuEntryConfirmation()`. -/
def checkSubmenuEntryConfirmation (ops : RealOps) (s : EngineState) :
    EngineState :=
  if s.submenuEntryConfirmed || s.navStack.length = 0 then s
  else
    match s.pointerPosition with
    | Option.none => s
    | some p =>
      let dist := distance ops s.position p
      let currentInnerRadius := getCurrentInnerRadius s
      let currentRadius := getCurrentRadius s
      if dist ≥ currentInnerRadius ∧ dist ≤ currentRadius * (6 / 5) then
        { s with submenuEntryConfirmed := true }
      else s

/-- `_checkDragThrough()`. -/
def checkDragThrough (ops : RealOps) (s : EngineState) :
    EngineState × List REvent :=
  if !s.instantDragThrough then (s, [])
  else
    match s.pointerPosition with
    | Option.none => (s, [])
    | some p =>
      if s.hoveredIndex < 0 then (s, [])
      else
        match s.currentItems[s.hoveredIndex.toNat]? with
        | Option.none => (s, [])
        | some item =>
          let hasChildren := hasChildrenB item
          let canLoadChildren := item.hasLoadChildren
          if !hasChildren && !canLoadChildren then (s, [])
          else
            let dist := distance ops s.position p
            let currentRadius := getCurrentRadius s
            let angle := angleFromCenter ops s.position p
            let radialVelocity :=
              s.velocity.vx * ops.cos angle + s.velocity.vy * ops.sin angle
            let velocityTrigger :=
              radialVelocity > s.dragThroughVelocityThreshold
            let distanceTrigger :=
              dist > currentRadius * s.dragThroughDistanceThreshold
            if velocityTrigger ∧ distanceTrigger then
              enterSubmenu item angle false s
            else (s, [])

/-- The spring-load dwell timer callback firing while the pointer is at
`p`: `_enterSubmenu(item, angleFromCenter(position, pointerPosition), true)`. -/
def springLoadFire (ops : RealOps) (item : MenuItem) (p : Point)
    (s : EngineState) : EngineState × List REvent :=
  enterSubmenu item (angleFromCenter ops s.position p) true s

/-- Radial velocity component `vx·cosθ + vy·sinθ` at angle `θ`. -/
def radialVelocityAt (ops : RealOps) (v : Velocity) (theta : ℚ) : ℚ :=
  v.vx * ops.cos theta + v.vy * ops.sin theta

/-- The distributed angle of the hovered item (the sector centre angle of
`currentItems[hoveredIndex]`). -/
def hoveredItemAngle (s : EngineState) : ℚ :=
  ((distributeAngles s.currentItems.length s.config.startAngle
      s.config.sweepAngle).get? s.hoveredIndex.toNat).getD
    s.config.startAngle

/-- A concrete interpretation of the analytic primitives used by witnesses
and counterexamples: `sqrt` is the identity (so a distance evaluates to the
squared euclidean distance), `atan2 dy dx = dy`, and `cos`/`sin` agree with
the true cosine/sine at the two angles the concrete runs query (`0` and the
fixture start angle `-3/2 ≈ -π/2`). -/
def opsLin : RealOps :=
  { pi := 3
  , sqrt := fun q => q
  , atan2 := fun y _ => y
  , cos := fun q => if q = 0 then 1 else 0
  , sin := fun q => if q = 0 then 0 else -1 }

/-- `DEFAULT_CONFIG` with the angles read in the `opsLin` interpretation
(`startAngle = -π/2`, `sweepAngle = 2π` with `π := 3`). -/
def defaultConfig : MenuConfig :=
  { radius := 120
  , innerRadius := 40
  , gap := 1 / 20
  , startAngle := -(3 / 2)
  , sweepAngle := 6
  , animationDuration := 200
  , edgeDetection := true
  , smartFlip := true
  , showDriftTrace := false
  , infiniteSelection := true
  , centerDeadzone := 30
  , infiniteThreshold := 0
  , edgeBehavior := .flip }

def flipNone : FlipState :=
  { flipX := false, flipY := false }

/-- A plain leaf child item. -/
def itemChild : MenuItem := .mk "c1" false none [] false false

/-- A selectable leaf item with an `onSelect` callback. -/
def itemLeaf : MenuItem := .mk "leaf" false none [] false true

/-- A non-expandable item with `selectable: false`. -/
def itemNoSel : MenuItem := .mk "nosel" false (some false) [] false false

/-- An expandable item with one eagerly supplied child. -/
def itemExp : MenuItem := .mk "a" false none [itemChild] false false

/-- An expandable item with a `loadChildren` function and no cached
children. -/
def itemLoad : MenuItem := .mk "a" false none [] true false

/-- A freshly opened menu at the origin hovering `itemExp`, with a rendered
container, drag-through enabled and the pointer at `(100, 0)` moving
outward at `250 px/s`. -/
def baseOpen : EngineState :=
  { items := [itemExp]
  , isOpen := true
  , isClosing := false
  , isDropTarget := false
  , position := { x := 0, y := 0 }
  , hoveredIndex := 0
  , focusedIndex := -1
  , keyboardActive := false
  , flip := flipNone
  , pointerPosition := some { x := 100, y := 0 }
  , velocity := { vx := 250, vy := 0 }
  , navStack := []
  , currentItems := [itemExp]
  , submenuEntryConfirmed := true
  , isLoading := false
  , loadingItemId := none
  , loadError := none
  , springLoadItemId := none
  , springLoadTimerSet := false
  , backDwellTimerSet := false
  , isStatic := false
  , defaultOpen := false
  , instantDragThrough := true
  , dragThroughVelocityThreshold := 200
  , dragThroughDistanceThreshold := 7 / 10
  , submenuRadiusStep := 60
  , centerSafeZone := 25
  , pendingCleanup := false
  , hasContainer := true
  , config := defaultConfig }

/-- `baseOpen` with `itemLoad` (a lazily loaded item) as content. -/
def baseOpenLoad : EngineState :=
  { baseOpen with items := [itemLoad], currentItems := [itemLoad] }

/-- `baseOpen` with infinite selection disabled. -/
def baseOpenNoInf : EngineState :=
  { baseOpen with config := { defaultConfig with infiniteSelection := false } }

/-- `baseOpen` with a finite `infiniteThreshold` of 1000. -/
def baseOpenThr : EngineState :=
  { baseOpen with config := { defaultConfig with infiniteThreshold := 1000 } }

/-- A depth-1 state whose submenu entry is not yet confirmed, with the
pointer inside the active ring (`opsLin`-distance `169 ∈ [120, 216]`). -/
def subUnconf : EngineState :=
  { baseOpen with
      navStack := [{ item := itemExp, entryAngle := 0, items := [itemExp] }]
    , currentItems := [itemChild]
    , hoveredIndex := -1
    , submenuEntryConfirmed := false
    , pointerPosition := some { x := 13, y := 0 } }

theorem MenuItem.id_setChildren (item : MenuItem) (c : List MenuItem) :
    (item.setChildren c).id = item.id := by
  cases item
  rfl

theorem MenuItem.children_setChildren (item : MenuItem) (c : List MenuItem) :
    (item.setChildren c).children = c := by
  cases item
  rfl

/-- C8: `detectEdgeConstraints(center, radius, viewport, padding)` computes
available space as `point − padding` on top/left and
`viewportDim − point − padding` on bottom/right, marks an edge constrained
iff its available space is less than `radius`, produces an offset whose
component on a violated axis is exactly the deficit `radius − available`
directed into the viewport and `0` on an axis with no violated edge, and
`detectEdgeConstraints({x:512,y:384}, 100, {width:1024,height:768})` yields
`isConstrained = false` and a zero offset. -/
theorem claim_C8_detectEdgeConstraints
    (center : Point) (radius : ℚ) (viewport : Viewport) (padding : ℚ) :
    (detectEdgeConstraints center radius viewport padding).available =
      { top := center.y - padding
      , right := viewport.width - center.x - padding
      , bottom := viewport.height - center.y - padding
      , left := center.x - padding } ∧
    ((detectEdgeConstraints center radius viewport padding).constrained.top =
        true ↔ center.y - padding < radius) ∧
    ((detectEdgeConstraints center radius viewport padding).constrained.right =
        true ↔ viewport.width - center.x - padding < radius) ∧
    ((detectEdgeConstraints center radius viewport
        padding).constrained.bottom = true ↔
      viewport.height - center.y - padding < radius) ∧
    ((detectEdgeConstraints center radius viewport padding).constrained.left =
        true ↔ center.x - padding < radius) ∧
    (¬ center.x - padding < radius →
      ¬ viewport.width - center.x - padding < radius →
      (detectEdgeConstraints center radius viewport padding).offset.x = 0) ∧
    (center.x - padding < radius →
      (detectEdgeConstraints center radius viewport padding).offset.x =
        radius - (center.x - padding)) ∧
    (¬ center.x - padding < radius →
      viewport.width - center.x - padding < radius →
      (detectEdgeConstraints center radius viewport padding).offset.x =
        -(radius - (viewport.width - center.x - padding))) ∧
    (¬ center.y - padding < radius →
      ¬ viewport.height - center.y - padding < radius →
      (detectEdgeConstraints center radius viewport padding).offset.y = 0) ∧
    (center.y - padding < radius →
      (detectEdgeConstraints center radius viewport padding).offset.y =
        radius - (center.y - padding)) ∧
    (¬ center.y - padding < radius →
      viewport.height - center.y - padding < radius →
      (detectEdgeConstraints center radius viewport padding).offset.y =
        -(radius - (viewport.height - center.y - padding))) ∧
    (detectEdgeConstraints { x := 512, y := 384 } 100
        { width := 1024, height := 768 }).isConstrained = false ∧
    (detectEdgeConstraints { x := 512, y := 384 } 100
        { width := 1024, height := 768 }).offset = { x := 0, y := 0 } := by
  refine ⟨rfl, ?_, ?_, ?_, ?_, ?_, ?_, ?_, ?_, ?_, ?_, ?_, ?_⟩
  · simp [detectEdgeConstraints, getAvailableSpace]
  · simp [detectEdgeConstraints, getAvailableSpace]
  · simp [detectEdgeConstraints, getAvailableSpace]
  · simp [detectEdgeConstraints, getAvailableSpace]
  · intro h1 h2
    simp [detectEdgeConstraints, getAvailableSpace, h1, h2]
  · intro h1
    simp [detectEdgeConstraints, getAvailableSpace, h1]
  · intro h1 h2
    simp [detectEdgeConstraints, getAvailableSpace, h1, h2]
  · intro h1 h2
    simp [detectEdgeConstraints, getAvailableSpace, h1, h2]
  · intro h1
    simp [detectEdgeConstraints, getAvailableSpace, h1]
  · intro h1 h2
    simp [detectEdgeConstraints, getAvailableSpace, h1, h2]
  · norm_num [detectEdgeConstraints, getAvailableSpace]
  · norm_num [detectEdgeConstraints, getAvailableSpace]

/-- C8 witness: the theorem applied at a concrete constrained input
(`center = (50, 30)`, `radius = 100`, viewport `1024×768`, padding `8`):
the top and left edges are violated and the offset is the pair of
deficits. -/
theorem claim_C8_witness :
    (detectEdgeConstraints { x := 50, y := 30 } 100
        { width := 1024, height := 768 } 8).offset.x = 100 - (50 - 8) ∧
    (detectEdgeConstraints { x := 50, y := 30 } 100
        { width := 1024, height := 768 } 8).offset.y = 100 - (30 - 8) :=
  ⟨(claim_C8_detectEdgeConstraints { x := 50, y := 30 } 100
      { width := 1024, height := 768 } 8).2.2.2.2.2.2.1 (by norm_num)
  , (claim_C8_detectEdgeConstraints { x := 50, y := 30 } 100
      { width := 1024, height := 768 } 8).2.2.2.2.2.2.2.2.2.1 (by norm_num)⟩

/-- C10: at root level (`navStack = []`) `goBack()` returns `false`,
dispatches no event and leaves the state unchanged; it returns `true`
exactly when the stack is nonempty, in which case the popped stack is the
tail. -/
theorem claim_C10_goBack_root (s : EngineState) :
    (s.navStack = [] → goBack s = (s, [], false)) ∧
    ((goBack s).2.2 = true ↔ s.navStack ≠ []) ∧
    (∀ frame rest, s.navStack = frame :: rest →
      (goBack s).2.2 = true ∧ (goBack s).1.navStack = rest) := by
  cases h : s.navStack with
  | nil =>
    refine ⟨fun _ => ?_, ?_, fun frame rest hfr => by simp [h] at hfr⟩
    · simp [goBack, exitSubmenu, h]
    · simp [goBack, exitSubmenu, h]
  | cons frame rest =>
    refine ⟨fun hnil => by simp [h] at hnil, ?_, fun f r hfr => ?_⟩
    · simp [goBack, exitSubmenu, h]
    · injection hfr with hf hr
      subst hf
      subst hr
      exact ⟨by simp [goBack, exitSubmenu, h]
            , by simp [goBack, exitSubmenu, clearSpringLoad, h]⟩

/-- C10 witness: `goBack` on the freshly opened root state is a no-op
returning `false`. -/
theorem claim_C10_witness :
    baseOpen.navStack = [] ∧ goBack baseOpen = (baseOpen, [], false) :=
  ⟨rfl, (claim_C10_goBack_root baseOpen).1 rfl⟩

/-- C5: hit-testing returns −1 whenever the distance is below the effective
dead-zone (`max(centerDeadzone, currentInnerRadius)` with infinite
selection, `currentInnerRadius` without), whenever infinite selection is
off and the distance exceeds `currentRadius·1.5`, and whenever infinite
selection is on, `infiniteThreshold > 0` and the distance exceeds the
threshold. -/
theorem claim_C5_resolver_rejections :
    (∀ (ops : RealOps) (s : EngineState) (p : Point),
      distance ops s.position p <
        (if s.config.infiniteSelection then
          max s.config.centerDeadzone (getCurrentInnerRadius s)
         else getCurrentInnerRadius s) →
      calculateHoveredIndex ops s p = -1) ∧
    (∀ (ops : RealOps) (s : EngineState) (p : Point),
      s.config.infiniteSelection = false →
      distance ops s.position p > getCurrentRadius s * (3 / 2) →
      calculateHoveredIndex ops s p = -1) ∧
    (∀ (ops : RealOps) (s : EngineState) (p : Point),
      s.config.infiniteSelection = true →
      s.config.infiniteThreshold > 0 →
      distance ops s.position p > s.config.infiniteThreshold →
      calculateHoveredIndex ops s p = -1) := by
  refine ⟨fun ops s p h => ?_, fun ops s p h1 h2 => ?_, fun ops s p h1 h2 h3 => ?_⟩
  · simp only [calculateHoveredIndex]
    rw [if_pos h]
  · simp [calculateHoveredIndex, h1, h2]
  · simp [calculateHoveredIndex, h1, h2, h3]

/-- C5 witness: the three rejection cases at concrete inputs (under the
`opsLin` interpretation a distance evaluates to the squared euclidean
distance): a pointer in the dead-zone, a far pointer with infinite
selection off, and a pointer past a positive threshold. -/
theorem claim_C5_witness :
    calculateHoveredIndex opsLin baseOpen { x := 5, y := 0 } = -1 ∧
    calculateHoveredIndex opsLin baseOpenNoInf { x := 500, y := 0 } = -1 ∧
    calculateHoveredIndex opsLin baseOpenThr { x := 40, y := 0 } = -1 :=
  ⟨claim_C5_resolver_rejections.1 opsLin baseOpen { x := 5, y := 0 }
      (by norm_num [distance, opsLin, baseOpen, defaultConfig,
        getCurrentInnerRadius])
  , claim_C5_resolver_rejections.2.1 opsLin baseOpenNoInf { x := 500, y := 0 }
      rfl
      (by norm_num [distance, opsLin, baseOpenNoInf, baseOpen, defaultConfig,
        getCurrentRadius])
  , claim_C5_resolver_rejections.2.2 opsLin baseOpenThr { x := 40, y := 0 }
      rfl (by norm_num [baseOpenThr, baseOpen, defaultConfig])
      (by norm_num [distance, opsLin, baseOpenThr, baseOpen, defaultConfig])⟩

/-- C4: with infinite selection on and `infiniteThreshold = 0`, two pointer
positions with the same angle from the centre whose distances are both at
least the effective dead-zone resolve to the same item index — distance
does not change the answer. -/
theorem claim_C4_infinite_selection_angle_only
    (ops : RealOps) (s : EngineState) (p1 p2 : Point)
    (hinf : s.config.infiniteSelection = true)
    (hthr : s.config.infiniteThreshold = 0)
    (hang : angleFromCenter ops s.position p1 =
      angleFromCenter ops s.position p2)
    (hd1 : max s.config.centerDeadzone (getCurrentInnerRadius s) ≤
      distance ops s.position p1)
    (hd2 : max s.config.centerDeadzone (getCurrentInnerRadius s) ≤
      distance ops s.position p2) :
    calculateHoveredIndex ops s p1 = calculateHoveredIndex ops s p2 := by
  simp [calculateHoveredIndex, hinf, hthr, hang, not_lt.mpr hd1,
    not_lt.mpr hd2]

/-- C4 witness: the pointers `(50, 7)` and `(600, 7)` have the same
`opsLin`-angle from the origin and both clear the dead-zone, so they
resolve identically. -/
theorem claim_C4_witness :
    calculateHoveredIndex opsLin baseOpen { x := 50, y := 7 } =
      calculateHoveredIndex opsLin baseOpen { x := 600, y := 7 } :=
  claim_C4_infinite_selection_angle_only opsLin baseOpen
    { x := 50, y := 7 } { x := 600, y := 7 } rfl rfl
    (by norm_num [angleFromCenter, opsLin])
    (by norm_num [distance, opsLin, baseOpen, defaultConfig,
      getCurrentInnerRadius])
    (by norm_num [distance, opsLin, baseOpen, defaultConfig,
      getCurrentInnerRadius])

/-- C7: entering a submenu pushes exactly one frame that snapshots the
previously active item list, leaving the frames beneath untouched, and an
immediate exit restores exactly that prior active list, resets hover to
−1 and reports a successful pop. -/
theorem claim_C7_push_pop_roundtrip
    (item : MenuItem) (angle : ℚ) (conf : Bool) (s : EngineState)
    (h : item.children.isEmpty = false) :
    (performSubmenuEntry item angle conf s).1.navStack =
      { item := item, entryAngle := angle, items := s.currentItems } ::
        s.navStack ∧
    (exitSubmenu (performSubmenuEntry item angle conf s).1).1.currentItems =
      s.currentItems ∧
    (exitSubmenu (performSubmenuEntry item angle conf s).1).1.hoveredIndex =
      -1 ∧
    (exitSubmenu (performSubmenuEntry item angle conf s).1).1.navStack =
      s.navStack ∧
    (exitSubmenu (performSubmenuEntry item angle conf s).1).2.2 = true := by
  simp [performSubmenuEntry, exitSubmenu, clearSpringLoad, clearBackDwell, h]

/-- C7 witness: the push/pop round trip on the concrete opened state. -/
theorem claim_C7_witness :
    itemExp.children.isEmpty = false ∧
    (exitSubmenu (performSubmenuEntry itemExp 0 true baseOpen).1).1.currentItems =
      baseOpen.currentItems ∧
    (exitSubmenu (performSubmenuEntry itemExp 0 true baseOpen).1).1.hoveredIndex =
      -1 :=
  ⟨rfl
  , (claim_C7_push_pop_roundtrip itemExp 0 true baseOpen rfl).2.1
  , (claim_C7_push_pop_roundtrip itemExp 0 true baseOpen rfl).2.2.1⟩

/-- C6: activating a hovered item — a non-expandable, selectable,
non-disabled item dispatches its `onSelect` callback and `ray-select`, then
closes the menu (dispatching `ray-close`); an expandable item (non-empty
children or a `loadChildren` function) enters its submenu instead of
selecting; a non-expandable item with `selectable: false` is a no-op. -/
theorem claim_C6_select_behavior :
    (∀ (ops : RealOps) (item : MenuItem) (s : EngineState),
      hasChildrenB item = false → item.hasLoadChildren = false →
      item.selectable ≠ some false → item.disabled = false →
      item.hasOnSelect = true → (s.defaultOpen && s.isStatic) = false →
      selectItem ops item s =
        ((close s).1
        , [REvent.onSelectCb item.id, REvent.raySelect item.id] ++
            (close s).2) ∧
      (close s).2 = [REvent.rayClose]) ∧
    (∀ (ops : RealOps) (item : MenuItem) (s : EngineState) (p : Point),
      s.pointerPosition = some p → hasChildrenB item = true →
      selectItem ops item s =
        performSubmenuEntry item (angleFromCenter ops s.position p) true s ∧
      (selectItem ops item s).2 =
        [REvent.raySubmenuEnter item.id (s.navStack.length + 1)]) ∧
    (∀ (ops : RealOps) (item : MenuItem) (s : EngineState),
      hasChildrenB item = false → item.hasLoadChildren = true →
      (selectItem ops item s).2 = [REvent.rayLoadStart item.id]) ∧
    (∀ (ops : RealOps) (item : MenuItem) (s : EngineState),
      hasChildrenB item = false → item.hasLoadChildren = false →
      item.selectable = some false →
      selectItem ops item s = (s, [])) := by
  refine ⟨fun ops item s h1 h2 h3 h4 h5 h6 => ⟨?_, ?_⟩
        , fun ops item s p hp h1 => ⟨?_, ?_⟩
        , fun ops item s h1 h2 => ?_
        , fun ops item s h1 h2 h3 => ?_⟩
  · simp [selectItem, h1, h2, h3, h5]
  · simp [close, h6]
    split_ifs <;> rfl
  · simp [selectItem, enterSubmenu, h1, hp]
  · have hne : item.children.isEmpty = false := by
      simpa [hasChildrenB] using h1
    simp [selectItem, enterSubmenu, performSubmenuEntry, clearSpringLoad,
      clearBackDwell, h1, hp, hne]
  · simp [selectItem, enterSubmenu, startLoad, h1, h2]
  · simp [selectItem, h1, h2, h3]

/-- C6 witness: the three behaviors at concrete items in the opened
state — a selectable leaf, an expandable item, a lazily loaded item and a
`selectable: false` leaf. -/
theorem claim_C6_witness :
    (selectItem opsLin itemLeaf baseOpen).2 =
      [REvent.onSelectCb "leaf", REvent.raySelect "leaf", REvent.rayClose] ∧
    (selectItem opsLin itemExp baseOpen).2 =
      [REvent.raySubmenuEnter "a" 1] ∧
    (selectItem opsLin itemLoad baseOpen).2 = [REvent.rayLoadStart "a"] ∧
    selectItem opsLin itemNoSel baseOpen = (baseOpen, []) := by
  have h1 := claim_C6_select_behavior.1 opsLin itemLeaf baseOpen rfl rfl
    (by decide) rfl rfl rfl
  have h2 := claim_C6_select_behavior.2.1 opsLin itemExp baseOpen
    { x := 100, y := 0 } rfl rfl
  have h3 := claim_C6_select_behavior.2.2.1 opsLin itemLoad baseOpen rfl rfl
  have h4 := claim_C6_select_behavior.2.2.2 opsLin itemNoSel baseOpen rfl rfl
    rfl
  refine ⟨?_, ?_, h3, h4⟩
  · rw [h1.1]
    simp [h1.2, itemLeaf, MenuItem.id]
  · exact h2.2

/-- C1 counterexample: on the normal close path (a rendered container, not
a drop target) `close()` defers its `cleanup` to the close animation, so a
`loadChildren` promise that resolves after `close()` but before the
deferred cleanup still passes the `_isOpen`/`_loadingItemId` guard: it
pushes a navigation frame and dispatches `ray-load-complete` and
`ray-submenu-enter`, contradicting the claim that the continuation of a
load pending at `close()` never mutates state or dispatches events. -/
theorem claim_C1_counterexample :
    (enterSubmenu itemLoad 0 true baseOpenLoad).2 =
      [REvent.rayLoadStart "a"] ∧
    (close (enterSubmenu itemLoad 0 true baseOpenLoad).1).2 =
      [REvent.rayClose] ∧
    (loadContinuation itemLoad 0 true (Except.ok [itemChild])
        (close (enterSubmenu itemLoad 0 true baseOpenLoad).1).1).2 =
      [REvent.rayLoadComplete "a", REvent.raySubmenuEnter "a" 1] ∧
    (loadContinuation itemLoad 0 true (Except.ok [itemChild])
        (close (enterSubmenu itemLoad 0 true
          baseOpenLoad).1).1).1.navStack.length = 1 :=
  ⟨rfl, rfl, rfl, rfl⟩

/-- C1 (amended): the load continuation is a no-op — no state change, no
events — whenever the menu is no longer open or the item in flight has
changed; in particular once `close()`'s `cleanup` has run (immediately on
the drop-target / no-container paths, at the deferred `cleanupFires` on the
animated path, outside dock mode) a pending `loadChildren`
resolution or rejection mutates nothing and dispatches nothing. -/
theorem claim_C1_stale_load_after_cleanup :
    (∀ (item : MenuItem) (angle : ℚ) (conf : Bool)
        (result : Except String (List MenuItem)) (s : EngineState),
      s.isOpen = false →
      loadContinuation item angle conf result s = (s, [])) ∧
    (∀ (item : MenuItem) (angle : ℚ) (conf : Bool)
        (result : Except String (List MenuItem)) (s : EngineState),
      s.loadingItemId ≠ some item.id →
      loadContinuation item angle conf result s = (s, [])) ∧
    (∀ (item : MenuItem) (angle : ℚ) (conf : Bool)
        (result : Except String (List MenuItem)) (s : EngineState),
      (s.defaultOpen && s.isStatic) = false →
      loadContinuation item angle conf result (cleanupFires (close s).1) =
        (cleanupFires (close s).1, [])) := by
  refine ⟨fun item angle conf result s h => ?_
        , fun item angle conf result s h => ?_
        , fun item angle conf result s h => ?_⟩
  · cases result <;> simp [loadContinuation, h]
  · cases result <;> simp [loadContinuation, h]
  · have hopen : (cleanupFires (close s).1).isOpen = false := by
      by_cases hdt : s.isDropTarget <;> by_cases hhc : s.hasContainer <;>
        simp [close, cleanupFires, cleanupState, clearSpringLoad,
          clearBackDwell, h, hdt, hhc]
    cases result <;> simp [loadContinuation, hopen]

/-- C1 witness: after the synchronous cleanup has run on the concrete
loading state, a late successful resolution is a no-op. -/
theorem claim_C1_witness :
    (cleanupState baseOpenLoad).isOpen = false ∧
    loadContinuation itemLoad 0 true (Except.ok [itemChild])
        (cleanupState baseOpenLoad) = (cleanupState baseOpenLoad, []) :=
  ⟨rfl
  , claim_C1_stale_load_after_cleanup.1 itemLoad 0 true
      (Except.ok [itemChild]) (cleanupState baseOpenLoad) rfl⟩

/-- C2: entering an expandable item that has a `loadChildren` function and
no cached children dispatches `ray-load-start` and marks the item in
flight; a resolution with a nonempty list while the menu is open and the
item unchanged caches the list on the item, dispatches `ray-load-complete`
and then `ray-submenu-enter` at depth 1 (entered from root), pushing
exactly one frame; an empty result skips the push; and a second entry of
the cached item is a direct submenu entry that dispatches no further
`ray-load-start`. -/
theorem claim_C2_async_load_success
    (item : MenuItem) (angle : ℚ) (conf : Bool) (s : EngineState)
    (c : MenuItem) (cs : List MenuItem)
    (hopen : s.isOpen = true) (hroot : s.navStack = [])
    (hnoc : item.children.isEmpty = true)
    (hload : item.hasLoadChildren = true) :
    (enterSubmenu item angle conf s).2 = [REvent.rayLoadStart item.id] ∧
    (enterSubmenu item angle conf s).1.loadingItemId = some item.id ∧
    (loadContinuation item angle conf (Except.ok (c :: cs))
        (enterSubmenu item angle conf s).1).2 =
      [REvent.rayLoadComplete item.id, REvent.raySubmenuEnter item.id 1] ∧
    (loadContinuation item angle conf (Except.ok (c :: cs))
        (enterSubmenu item angle conf s).1).1.navStack =
      [{ item := item.setChildren (c :: cs), entryAngle := angle
       , items := s.currentItems }] ∧
    (loadContinuation item angle conf (Except.ok (c :: cs))
        (enterSubmenu item angle conf s).1).1.currentItems = c :: cs ∧
    (loadContinuation item angle conf (Except.ok [])
        (enterSubmenu item angle conf s).1).2 =
      [REvent.rayLoadComplete item.id] ∧
    (loadContinuation item angle conf (Except.ok [])
        (enterSubmenu item angle conf s).1).1.navStack = [] ∧
    (∀ (angle2 : ℚ) (conf2 : Bool) (s2 : EngineState),
      enterSubmenu (item.setChildren (c :: cs)) angle2 conf2 s2 =
        performSubmenuEntry (item.setChildren (c :: cs)) angle2 conf2 s2 ∧
      (enterSubmenu (item.setChildren (c :: cs)) angle2 conf2 s2).2 =
        [REvent.raySubmenuEnter item.id (s2.navStack.length + 1)]) := by
  have hstep : enterSubmenu item angle conf s = startLoad item s := by
    simp [enterSubmenu, hasChildrenB, hnoc, hload]
  refine ⟨?_, ?_, ?_, ?_, ?_, ?_, ?_, fun angle2 conf2 s2 => ⟨?_, ?_⟩⟩
  · simp [hstep, startLoad, hload]
  · simp [hstep, startLoad, hload]
  · simp [hstep, startLoad, loadContinuation, performSubmenuEntry,
      clearSpringLoad, clearBackDwell, MenuItem.children_setChildren,
      MenuItem.id_setChildren, hload, hopen, hroot]
  · simp [hstep, startLoad, loadContinuation, performSubmenuEntry,
      clearSpringLoad, clearBackDwell, MenuItem.children_setChildren,
      MenuItem.id_setChildren, hload, hopen, hroot]
  · simp [hstep, startLoad, loadContinuation, performSubmenuEntry,
      clearSpringLoad, clearBackDwell, MenuItem.children_setChildren,
      hload, hopen, hroot]
  · simp [hstep, startLoad, loadContinuation, hload, hopen]
  · simp [hstep, startLoad, loadContinuation, hload, hopen, hroot]
  · simp [enterSubmenu, hasChildrenB, MenuItem.children_setChildren]
  · simp [enterSubmenu, performSubmenuEntry, hasChildrenB, clearSpringLoad,
      clearBackDwell, MenuItem.children_setChildren, MenuItem.id_setChildren]

/-- C2 witness: the concrete three-event trace for `itemLoad` resolving
with one child, plus the cached re-entry dispatching no load event. -/
theorem claim_C2_witness :
    (enterSubmenu itemLoad 0 true baseOpenLoad).2 =
      [REvent.rayLoadStart "a"] ∧
    (loadContinuation itemLoad 0 true (Except.ok [itemChild])
        (enterSubmenu itemLoad 0 true baseOpenLoad).1).2 =
      [REvent.rayLoadComplete "a", REvent.raySubmenuEnter "a" 1] ∧
    (enterSubmenu (itemLoad.setChildren [itemChild]) 0 true baseOpenLoad).2 =
      [REvent.raySubmenuEnter "a" 1] :=
  ⟨(claim_C2_async_load_success itemLoad 0 true baseOpenLoad itemChild []
      rfl rfl rfl rfl).1
  , (claim_C2_async_load_success itemLoad 0 true baseOpenLoad itemChild []
      rfl rfl rfl rfl).2.2.1
  , ((claim_C2_async_load_success itemLoad 0 true baseOpenLoad itemChild []
      rfl rfl rfl rfl).2.2.2.2.2.2.2 0 true baseOpenLoad).2⟩

/-- C3 counterexample: a submenu entered via click/selection
(`_selectItem` → `_enterSubmenu(item, angle, true)`) has its
entry-confirmed flag set to `true` immediately, not `false` as claimed. -/
theorem claim_C3_counterexample :
    (selectItem opsLin itemExp baseOpen).2 =
      [REvent.raySubmenuEnter "a" 1] ∧
    (selectItem opsLin itemExp baseOpen).1.submenuEntryConfirmed = true :=
  ⟨rfl, rfl⟩

/-- C3 (amended): a submenu entered via click/selection or spring-load is
marked entry-confirmed immediately; a submenu entered via drag-through
(the default `confirmedEntry = false` of `_enterSubmenu`) starts
unconfirmed, and the flag becomes `true` exactly when a pointer sample is
observed with `currentInnerRadius ≤ dist ≤ currentRadius·1.2`. -/
theorem claim_C3_entry_confirmation :
    (∀ (ops : RealOps) (item : MenuItem) (s : EngineState),
      hasChildrenB item = true →
      (selectItem ops item s).1.submenuEntryConfirmed = true) ∧
    (∀ (item : MenuItem) (angle : ℚ) (s : EngineState),
      hasChildrenB item = true →
      (performSubmenuEntry item angle false s).1.submenuEntryConfirmed =
        false) ∧
    (∀ (ops : RealOps) (s : EngineState) (p : Point),
      s.submenuEntryConfirmed = false → s.navStack.length ≠ 0 →
      s.pointerPosition = some p →
      ((checkSubmenuEntryConfirmation ops s).submenuEntryConfirmed = true ↔
        (getCurrentInnerRadius s ≤ distance ops s.position p ∧
          distance ops s.position p ≤ getCurrentRadius s * (6 / 5)))) ∧
    (∀ (ops : RealOps) (item : MenuItem) (p : Point) (s : EngineState),
      hasChildrenB item = true →
      (springLoadFire ops item p s).1.submenuEntryConfirmed = true) := by
  refine ⟨fun ops item s h1 => ?_, fun item angle s h1 => ?_
        , fun ops s p h1 h2 h3 => ?_, fun ops item p s h1 => ?_⟩
  · have hne : item.children.isEmpty = false := by
      simpa [hasChildrenB] using h1
    cases hp : s.pointerPosition <;>
      simp [selectItem, enterSubmenu, performSubmenuEntry, clearSpringLoad,
        clearBackDwell, h1, hp, hne]
  · have hne : item.children.isEmpty = false := by
      simpa [hasChildrenB] using h1
    simp [performSubmenuEntry, clearSpringLoad, clearBackDwell, hne]
  · unfold checkSubmenuEntryConfirmation
    rw [if_neg (by simp [h1, h2])]
    simp only [h3]
    split_ifs with hc
    · simp [hc]
    · simp only [ge_iff_le, not_and, not_le] at hc
      constructor
      · intro hfl
        rw [h1] at hfl
        cases hfl
      · intro hcc
        exact absurd (hc hcc.1) (not_lt.mpr hcc.2)
  · have hne : item.children.isEmpty = false := by
      simpa [hasChildrenB] using h1
    simp [springLoadFire, enterSubmenu, performSubmenuEntry, clearSpringLoad,
      clearBackDwell, h1, hne]

/-- C3 witness: the four amended behaviors at concrete inputs; in
`subUnconf` the pointer sits in the active ring (`120 ≤ 169 ≤ 216`), so
the unconfirmed flag flips to `true`. -/
theorem claim_C3_witness :
    (selectItem opsLin itemExp baseOpen).1.submenuEntryConfirmed = true ∧
    (performSubmenuEntry itemExp 0 false baseOpen).1.submenuEntryConfirmed =
      false ∧
    (checkSubmenuEntryConfirmation opsLin subUnconf).submenuEntryConfirmed =
      true ∧
    (springLoadFire opsLin itemExp { x := 100, y := 0 }
        baseOpen).1.submenuEntryConfirmed = true :=
  ⟨claim_C3_entry_confirmation.1 opsLin itemExp baseOpen rfl
  , claim_C3_entry_confirmation.2.1 itemExp 0 baseOpen rfl
  , (claim_C3_entry_confirmation.2.2.1 opsLin subUnconf { x := 13, y := 0 }
      rfl (by simp [subUnconf, baseOpen]) rfl).mpr
      (by constructor <;>
        norm_num [distance, opsLin, subUnconf, baseOpen, defaultConfig,
          getCurrentInnerRadius, getCurrentRadius])
  , claim_C3_entry_confirmation.2.2.2 opsLin itemExp { x := 100, y := 0 }
      baseOpen rfl⟩

/-- C9 counterexample: drag-through triggers on the radial velocity at the
pointer's own angle, not at the hovered item's sector angle.  In the
concrete state the pointer is at angle `0` with outward velocity `250`
(so the code enters the submenu), while the hovered item's distributed
angle is `-3/2`, where the radial component is `0`, below the threshold —
so the claimed equivalence fails. -/
theorem claim_C9_counterexample :
    ¬ (((checkDragThrough opsLin baseOpen).2 ≠ []) ↔
        (radialVelocityAt opsLin baseOpen.velocity (hoveredItemAngle baseOpen) >
            baseOpen.dragThroughVelocityThreshold ∧
          distance opsLin baseOpen.position { x := 100, y := 0 } >
            getCurrentRadius baseOpen *
              baseOpen.dragThroughDistanceThreshold)) := by
  intro h
  have h1 : (checkDragThrough opsLin baseOpen).2 =
      [REvent.raySubmenuEnter "a" 1] := by
    norm_num [checkDragThrough, baseOpen, opsLin, defaultConfig, distance,
      angleFromCenter, getCurrentRadius, enterSubmenu, performSubmenuEntry,
      hasChildrenB, itemExp, itemChild, MenuItem.children,
      MenuItem.hasLoadChildren, MenuItem.id, clearSpringLoad, clearBackDwell]
  have h2 := h.mp (by simp [h1])
  have h3 : radialVelocityAt opsLin baseOpen.velocity
      (hoveredItemAngle baseOpen) = 0 := by
    norm_num [radialVelocityAt, hoveredItemAngle, baseOpen, opsLin,
      defaultConfig, distributeAngles]
  rw [h3] at h2
  exact absurd h2.1 (by norm_num [baseOpen])

/-- C9 (amended): while drag-through is enabled and the hovered item is
expandable, the gesture enters that item's submenu exactly when the radial
component of the pointer velocity at the pointer's own angle from the
centre (`vx·cosθ + vy·sinθ`) exceeds the 200 px/s threshold and the
pointer distance exceeds 0.7 of the current radius; otherwise it triggers
nothing. -/
theorem claim_C9_drag_through (ops : RealOps) (s : EngineState) (p : Point)
    (item : MenuItem)
    (hen : s.instantDragThrough = true)
    (hp : s.pointerPosition = some p)
    (hh : 0 ≤ s.hoveredIndex)
    (hit : s.currentItems[s.hoveredIndex.toNat]? = some item)
    (hexp : (hasChildrenB item || item.hasLoadChildren) = true)
    (hvt : s.dragThroughVelocityThreshold = 200)
    (hdt : s.dragThroughDistanceThreshold = 7 / 10) :
    (radialVelocityAt ops s.velocity (angleFromCenter ops s.position p) >
          200 ∧
        distance ops s.position p > getCurrentRadius s * (7 / 10) →
      checkDragThrough ops s =
        enterSubmenu item (angleFromCenter ops s.position p) false s) ∧
    (¬ (radialVelocityAt ops s.velocity (angleFromCenter ops s.position p) >
          200 ∧
        distance ops s.position p > getCurrentRadius s * (7 / 10)) →
      checkDragThrough ops s = (s, [])) := by
  have hguard : ¬(hasChildrenB item = false ∧ item.hasLoadChildren = false) := by
    rcases Bool.or_eq_true_iff.mp hexp with h | h <;> simp [h]
  constructor
  · intro hc
    simp only [radialVelocityAt, gt_iff_lt] at hc
    simp [checkDragThrough, hen, hp, not_lt.mpr hh, hit, hguard, hvt, hdt,
      hc.1, hc.2]
  · intro hc
    simp only [radialVelocityAt, gt_iff_lt] at hc
    rcases not_and_or.mp hc with h' | h' <;>
      simp [checkDragThrough, hen, hp, not_lt.mpr hh, hit, hguard, hvt, hdt,
        h']

/-- C9 witness: in the concrete state both triggers hold (radial velocity
`250 > 200` at pointer angle `0`, squared distance `10000 > 84`), so the
drag-through check performs the submenu entry. -/
theorem claim_C9_witness :
    checkDragThrough opsLin baseOpen =
      enterSubmenu itemExp
        (angleFromCenter opsLin baseOpen.position { x := 100, y := 0 })
        false baseOpen :=
  (claim_C9_drag_through opsLin baseOpen { x := 100, y := 0 } itemExp rfl rfl
      (by norm_num [baseOpen]) rfl rfl rfl rfl).1
    (by constructor <;>
      norm_num [radialVelocityAt, angleFromCenter, distance, opsLin, baseOpen,
        defaultConfig, getCurrentRadius])

end RayMenu
